import Mathlib

/-!
Verification of the conversational session manager implemented in
`src/App.tsx` (a React single-page chat client).

The shallow embedding below translates the stateful component into pure
Lean definitions:

* the React `useState` cells of the `App` component become the fields of
  `AppState`;
* the `async handleSend` callback is split at its `await` point into
  `handleSendStart` (the synchronous phase up to and including the
  endpoint-configuration check and the `fetch` dispatch) and
  `handleSendResolve` (the continuation that runs when the promise
  settles); the closure values captured at dispatch time
  (`activeConversationId` and `n8nMessageList`) are carried across the
  suspension in a `PendingSend` record;
* the `useEffect` with dependencies `[activeConversationId,
  conversationHistory]` (App.tsx lines 185-194) becomes `syncEffect`; it
  is applied after every transition that changes one of its two
  dependencies, mirroring React's semantics that effects re-run exactly
  when a dependency changes.  In particular it is *not* applied after the
  failure path of `handleSendResolve`, which touches neither dependency;
* JavaScript truthiness of the `activeConversationId` string (`""` and
  `null` are falsy) is made explicit by `truthyId`;
* `nanoid()` results are passed in as parameters (`uid`, `newConvId`),
  since the embedding is deterministic;
* whole sessions, including the list of still-unsettled fetches, are
  modelled by `Session`, with user/network interleavings as `Event`
  lists folded by `step`.

Purely presentational state (scroll-arrow booleans, DOM refs, the
suggestion bar) is outside the scope of the specification and is not
modelled.
-/

namespace ChatApp

/-- `N8nMessage` from App.tsx: one turn of a conversation. -/
inductive Role where
  | user
  | assistant
deriving DecidableEq

structure N8nMessage where
  id : String
  role : Role
  content : String
deriving DecidableEq

/-- `ConversationHistory` from App.tsx: one saved conversation entry. -/
structure ConversationHistory where
  id : String
  title : String
  messages : List N8nMessage
deriving DecidableEq

/-- The `useState` cells of the `App` component. -/
structure AppState where
  messages : List N8nMessage
  text : String
  isLoading : Bool
  error : Option String
  isSidebarOpen : Bool
  hasInteracted : Bool
  conversationHistory : List ConversationHistory
  activeConversationId : Option String
deriving DecidableEq

/-- Values captured by the `handleSend` closure at dispatch time and used
again when the fetch settles: the snapshotted `activeConversationId` and
the outbound `n8nMessageList`. -/
structure PendingSend where
  snapshotActiveId : Option String
  outboundLog : List N8nMessage
deriving DecidableEq

/-- Outcome of the synchronous phase of `handleSend`. -/
inductive StartResult where
  | rejected
  | configFailed
  | inFlight (p : PendingSend)
deriving DecidableEq

/-- How the `fetch` settles: `netErr` covers a thrown fetch or a
non-`ok` response status; `ok r` is a 2xx response whose JSON body has
`messages` equal to `r` (`none` when the field is absent/null). -/
inductive AdapterOutcome where
  | netErr (emsg : String)
  | ok (result : Option (List N8nMessage))
deriving DecidableEq

/-- The reserved placeholder turn (`loadingMessage` in App.tsx). -/
def loadingMessage : N8nMessage :=
  { id := "loader", role := Role.assistant, content := "..." }

/-- The user turn built at the top of `handleSend`. -/
def userMessage (uid content : String) : N8nMessage :=
  { id := uid, role := Role.user, content := content }

/-- `String.prototype.trim`: drop leading and trailing whitespace
characters (defined structurally over the character list so that it
evaluates by reduction). -/
def jsTrim (s : String) : String :=
  String.mk
    (((s.toList.dropWhile Char.isWhitespace).reverse.dropWhile
        Char.isWhitespace).reverse)

/-- `!N8N_CHAT_API || N8N_CHAT_API === "YOUR_FALLBACK_WEBHOOK_URL"`:
the endpoint is unconfigured when empty (falsy) or the fallback value. -/
def notConfigured (api : String) : Bool :=
  api == "" || api == "YOUR_FALLBACK_WEBHOOK_URL"

/-- JavaScript truthiness of an optional id string: `null` and `""` are
falsy, every other string is truthy. -/
def truthyId : Option String → Option String
  | none => none
  | some a => if a = "" then none else some a

/-- `conversationHistory.find((c) => c.id === convId)`. -/
def findConv (hist : List ConversationHistory) (cid : String) :
    Option ConversationHistory :=
  hist.find? (fun c => c.id == cid)

/-- App.tsx lines 277-279: the base log captured at submission time.
`activeConversationId ? (find(...)?.messages || []) : messages` —
when an id is active the matching entry's messages are used (or `[]`
when no entry matches); with no truthy active id the current visible
`messages` state is used. -/
def currentMessagesOf (s : AppState) : List N8nMessage :=
  match truthyId s.activeConversationId with
  | some aid =>
    match findConv s.conversationHistory aid with
    | some conv => conv.messages
    | none => []
  | none => s.messages

/-- The arrow function inside the success-path `map` (App.tsx lines
321-325): replace the messages of the entry whose id equals the
snapshotted active id, leave every other entry alone. -/
def updateEntry (aid : String) (msgs : List N8nMessage)
    (c : ConversationHistory) : ConversationHistory :=
  if c.id = aid then { c with messages := msgs } else c

/-- App.tsx lines 328-329:
`result.messages[0]?.content.substring(0, 30) + "..." || "New Chat"`.
JavaScript evaluates the `+` before the `||`: when the first turn is
missing, `undefined + "..."` is the string `"undefined..."`; the `||`
fallback fires only when the concatenation is the empty string, which
never happens. -/
def newTitle (msgs : List N8nMessage) : String :=
  let titleHead : String :=
    match msgs.head? with
    | some m => m.content.take 30
    | none => "undefined"
  let candidate := titleHead ++ "..."
  if candidate == "" then "New Chat" else candidate

/-- The store-rehydration `useEffect` (App.tsx lines 185-194): when a
truthy id is active and an entry matches it, the visible log is set to
that entry's messages; when a matching entry is absent nothing happens;
when no id is active the visible log is cleared. -/
def syncEffect (s : AppState) : AppState :=
  match truthyId s.activeConversationId with
  | some aid =>
    match findConv s.conversationHistory aid with
    | some conv => { s with messages := conv.messages }
    | none => s
  | none => { s with messages := [] }

/-- Synchronous phase of `handleSend` (App.tsx lines 263-297): guard,
optimistic update, configuration check, dispatch. -/
def handleSendStart (api uid content : String) (s : AppState) :
    AppState × StartResult :=
  if jsTrim content == "" || s.isLoading then (s, StartResult.rejected)
  else
    let um := userMessage uid content
    let currentMessages := currentMessagesOf s
    let n8nMessageList := currentMessages ++ [um]
    let s1 : AppState :=
      { s with
        hasInteracted := true
        error := none
        text := ""
        messages := s.messages ++ [um, loadingMessage]
        isLoading := true }
    if notConfigured api then
      ({ s1 with
          error := some "Chat service is not configured."
          messages := n8nMessageList
          isLoading := false },
        StartResult.configFailed)
    else
      (s1, StartResult.inFlight
        { snapshotActiveId := s.activeConversationId
          outboundLog := n8nMessageList })

/-- Continuation of `handleSend` after the fetch settles (App.tsx lines
306-346): this is the handler's own state commit, before any effect
re-runs.  The catch block covers both transport failures and a body with
no `messages` field; the `finally` clears `isLoading` on every path. -/
def handleSendResolve (newConvId : String) (p : PendingSend)
    (o : AdapterOutcome) (s : AppState) : AppState :=
  match o with
  | AdapterOutcome.netErr e =>
    { s with
      error := some ("Sorry, I had trouble connecting: " ++ e)
      messages := p.outboundLog
      isLoading := false }
  | AdapterOutcome.ok none =>
    { s with
      error := some ("Sorry, I had trouble connecting: " ++
        "Invalid response structure from n8n")
      messages := p.outboundLog
      isLoading := false }
  | AdapterOutcome.ok (some msgs) =>
    match truthyId p.snapshotActiveId with
    | some aid =>
      { s with
        messages := msgs
        conversationHistory :=
          s.conversationHistory.map (updateEntry aid msgs)
        isLoading := false }
    | none =>
      { s with
        messages := msgs
        conversationHistory :=
          { id := newConvId, title := newTitle msgs, messages := msgs }
            :: s.conversationHistory
        activeConversationId := some newConvId
        isLoading := false }

/-- The settled state after a fetch resolution: on success the
`conversationHistory` dependency (and possibly `activeConversationId`)
changed, so the rehydration effect re-runs; on failure neither
dependency changed and the effect does not run. -/
def resolveSettled (newConvId : String) (p : PendingSend)
    (o : AdapterOutcome) (s : AppState) : AppState :=
  match o with
  | AdapterOutcome.ok (some _) => syncEffect (handleSendResolve newConvId p o s)
  | _ => handleSendResolve newConvId p o s

/-- `loadConversation` (App.tsx lines 251-255) followed by the effect
re-run triggered by the changed `activeConversationId` dependency. -/
def loadConversation (convId : String) (s : AppState) : AppState :=
  syncEffect
    { s with
      activeConversationId := some convId
      hasInteracted := true
      isSidebarOpen := false }

/-- `startNewConversation` (App.tsx lines 241-249) followed by the effect
re-run (with no active id the effect clears the already-empty log). -/
def startNewConversation (s : AppState) : AppState :=
  syncEffect
    { s with
      activeConversationId := none
      messages := []
      text := ""
      isLoading := false
      error := none
      hasInteracted := true
      isSidebarOpen := false }

/-- `toggleSidebar` (App.tsx lines 257-260). -/
def toggleSidebar (s : AppState) : AppState :=
  { s with isSidebarOpen := !s.isSidebarOpen, hasInteracted := true }

/-- The initial `useState` values of the component. -/
def initialState : AppState :=
  { messages := []
    text := ""
    isLoading := false
    error := none
    isSidebarOpen := false
    hasInteracted := false
    conversationHistory := []
    activeConversationId := none }

/-- A whole session: the component state plus the fetches that have been
dispatched but have not settled yet. -/
structure Session where
  app : AppState
  pending : List PendingSend
deriving DecidableEq

def initialSession : Session :=
  { app := initialState, pending := [] }

/-- Observable events of a session: user actions and fetch settlements.
`resolve idx` settles the `idx`-th outstanding fetch (and is a no-op
when no such fetch exists). -/
inductive Event where
  | submit (uid content : String)
  | resolve (idx : Nat) (newConvId : String) (o : AdapterOutcome)
  | select (convId : String)
  | newConversation
  | toggle
  | typeText (t : String)
deriving DecidableEq

def step (api : String) (s : Session) (e : Event) : Session :=
  match e with
  | Event.submit uid content =>
    let r := handleSendStart api uid content s.app
    match r.2 with
    | StartResult.inFlight p => { app := r.1, pending := s.pending ++ [p] }
    | _ => { app := r.1, pending := s.pending }
  | Event.resolve idx newConvId o =>
    match s.pending[idx]? with
    | some p =>
      { app := resolveSettled newConvId p o s.app
        pending := s.pending.eraseIdx idx }
    | none => s
  | Event.select convId => { s with app := loadConversation convId s.app }
  | Event.newConversation => { s with app := startNewConversation s.app }
  | Event.toggle => { s with app := toggleSidebar s.app }
  | Event.typeText t => { s with app := { s.app with text := t } }

def runEvents (api : String) (s : Session) (evs : List Event) : Session :=
  evs.foldl (step api) s

/-- The persisted store is clean when no saved entry contains the
placeholder turn. -/
def storeClean (s : Session) : Bool :=
  s.app.conversationHistory.all
    (fun c => !(c.messages.contains loadingMessage))

/-- An event is clean when any successful adapter response it carries is
free of the placeholder turn. -/
def eventClean : Event → Bool
  | Event.resolve _ _ (AdapterOutcome.ok (some msgs)) =>
    !(msgs.contains loadingMessage)
  | _ => true

set_option maxRecDepth 100000

/-! ### Structural lemmas about the embedding -/

theorem updateEntry_id (aid : String) (msgs : List N8nMessage)
    (c : ConversationHistory) : (updateEntry aid msgs c).id = c.id := by
  unfold updateEntry
  split <;> rfl

theorem updateEntry_title (aid : String) (msgs : List N8nMessage)
    (c : ConversationHistory) : (updateEntry aid msgs c).title = c.title := by
  unfold updateEntry
  split <;> rfl

theorem findConv_some_id (hist : List ConversationHistory) (cid : String)
    (c : ConversationHistory) (h : findConv hist cid = some c) : c.id = cid := by
  have hp := List.find?_some h
  simpa using hp

theorem findConv_map_updateEntry (hist : List ConversationHistory)
    (aid : String) (msgs : List N8nMessage) (cid : String) :
    findConv (hist.map (updateEntry aid msgs)) cid
      = (findConv hist cid).map (updateEntry aid msgs) := by
  induction hist with
  | nil => rfl
  | cons c tl ih =>
    unfold findConv at ih ⊢
    cases h : (c.id == cid) with
    | true =>
      have hm : List.find? (fun x => x.id == cid)
          (updateEntry aid msgs c :: List.map (updateEntry aid msgs) tl)
            = some (updateEntry aid msgs c) :=
        List.find?_cons_of_pos _ (by simpa [updateEntry_id] using h)
      have ho : List.find? (fun x => x.id == cid) (c :: tl) = some c :=
        List.find?_cons_of_pos _ h
      rw [List.map_cons, hm, ho]
      rfl
    | false =>
      have hm : List.find? (fun x => x.id == cid)
          (updateEntry aid msgs c :: List.map (updateEntry aid msgs) tl)
            = List.find? (fun x => x.id == cid)
                (List.map (updateEntry aid msgs) tl) :=
        List.find?_cons_of_neg _ (by simp [updateEntry_id, h])
      have ho : List.find? (fun x => x.id == cid) (c :: tl)
          = List.find? (fun x => x.id == cid) tl :=
        List.find?_cons_of_neg _ (by simp [h])
      rw [List.map_cons, hm, ho]
      exact ih

/-- The rehydration effect touches only the `messages` field. -/
theorem syncEffect_frame (s : AppState) :
    (syncEffect s).conversationHistory = s.conversationHistory
    ∧ (syncEffect s).activeConversationId = s.activeConversationId
    ∧ (syncEffect s).error = s.error
    ∧ (syncEffect s).isLoading = s.isLoading := by
  unfold syncEffect
  split
  · split <;> simp
  · simp

/-- Inverting a dispatched submission: the `PendingSend` record carries
the active id and the outbound log as captured at submission time. -/
theorem handleSendStart_inFlight_inv (api uid content : String)
    (s a : AppState) (p : PendingSend)
    (h : handleSendStart api uid content s = (a, StartResult.inFlight p)) :
    p.snapshotActiveId = s.activeConversationId
    ∧ p.outboundLog = currentMessagesOf s ++ [userMessage uid content] := by
  unfold handleSendStart at h
  split at h
  · simp at h
  · split at h
    · simp at h
    · rw [Prod.mk.injEq, StartResult.inFlight.injEq] at h
      rw [← h.2]
      exact ⟨rfl, rfl⟩

/-- The synchronous phase of `handleSend` never touches the store. -/
theorem handleSendStart_store (api uid content : String) (s : AppState) :
    (handleSendStart api uid content s).1.conversationHistory
        = s.conversationHistory
    ∧ (handleSendStart api uid content s).1.activeConversationId
        = s.activeConversationId := by
  unfold handleSendStart
  split
  · exact ⟨rfl, rfl⟩
  · split <;> exact ⟨rfl, rfl⟩

/-! ### Concrete fixtures used by witnesses and counterexamples -/

/-- A configured endpoint (neither empty nor the fallback value). -/
def apiX : String := "http://example.test"

def turnHello : N8nMessage := userMessage "u1" "hello"

def turnAgain : N8nMessage := userMessage "u2" "again"

def turnReplyOk : N8nMessage :=
  { id := "a1", role := Role.assistant, content := "ok" }

/-! ### Claims -/

/-- C4: for every input that is empty or whitespace-only, and for every
submission attempted while another submission is outstanding, the
submission is a no-op: `handleSend` returns at its guard leaving the
component state unchanged and dispatching nothing, so the whole session
is a fixed point of the submit event. -/
theorem C4_reject_noop (api uid content : String) (sess : Session)
    (h : jsTrim content = "" ∨ sess.app.isLoading = true) :
    handleSendStart api uid content sess.app = (sess.app, StartResult.rejected)
    ∧ step api sess (Event.submit uid content) = sess := by
  have hg : (jsTrim content == "" || sess.app.isLoading) = true := by
    rcases h with h | h
    · simp [h]
    · simp [h]
  have h1 : handleSendStart api uid content sess.app
      = (sess.app, StartResult.rejected) := by
    unfold handleSendStart
    rw [if_pos hg]
  refine ⟨h1, ?_⟩
  simp [step, h1]

/-- C4 witness: a whitespace-only input on the initial session. -/
theorem C4_witness :
    handleSendStart apiX "u1" "  " initialSession.app
        = (initialSession.app, StartResult.rejected)
    ∧ step apiX initialSession (Event.submit "u1" "  ") = initialSession :=
  C4_reject_noop apiX "u1" "  " initialSession (Or.inl (by decide))

/-- C2: every failure mode of a submission — unconfigured endpoint,
transport error or non-OK status, or a response body without a `messages`
field — leaves the visible log at exactly the captured base log plus the
user turn (the outbound log, with no placeholder and no injected
assistant turn), surfaces an error message, and leaves the store (entry
list and active id) untouched. -/
theorem C2_failure_rollback (api api2 uid content nid e : String)
    (s t : AppState) (p : PendingSend)
    (hguard : ¬(jsTrim content = "" ∨ s.isLoading = true))
    (hcfg : notConfigured api = true)
    (hcfg2 : notConfigured api2 = false) :
    ((handleSendStart api uid content s).1.messages
        = currentMessagesOf s ++ [userMessage uid content]
      ∧ (handleSendStart api uid content s).1.error
        = some "Chat service is not configured."
      ∧ (handleSendStart api uid content s).1.conversationHistory
        = s.conversationHistory
      ∧ (handleSendStart api uid content s).1.activeConversationId
        = s.activeConversationId
      ∧ (handleSendStart api uid content s).2 = StartResult.configFailed)
    ∧ (handleSendStart api2 uid content s).2
        = StartResult.inFlight
            { snapshotActiveId := s.activeConversationId
              outboundLog :=
                currentMessagesOf s ++ [userMessage uid content] }
    ∧ ((resolveSettled nid p (AdapterOutcome.netErr e) t).messages
          = p.outboundLog
      ∧ (resolveSettled nid p (AdapterOutcome.netErr e) t).error
          = some ("Sorry, I had trouble connecting: " ++ e)
      ∧ (resolveSettled nid p (AdapterOutcome.netErr e) t).conversationHistory
          = t.conversationHistory
      ∧ (resolveSettled nid p (AdapterOutcome.netErr e) t).activeConversationId
          = t.activeConversationId
      ∧ (resolveSettled nid p (AdapterOutcome.netErr e) t).isLoading = false)
    ∧ ((resolveSettled nid p (AdapterOutcome.ok none) t).messages
          = p.outboundLog
      ∧ (resolveSettled nid p (AdapterOutcome.ok none) t).error
          = some ("Sorry, I had trouble connecting: "
              ++ "Invalid response structure from n8n")
      ∧ (resolveSettled nid p (AdapterOutcome.ok none) t).conversationHistory
          = t.conversationHistory
      ∧ (resolveSettled nid p (AdapterOutcome.ok none) t).activeConversationId
          = t.activeConversationId
      ∧ (resolveSettled nid p (AdapterOutcome.ok none) t).isLoading
          = false) := by
  have h1 : jsTrim content ≠ "" := fun hh => hguard (Or.inl hh)
  have h2 : s.isLoading = false := by
    cases hsl : s.isLoading
    · rfl
    · exact absurd (Or.inr hsl) hguard
  have hg : (jsTrim content == "" || s.isLoading) = false := by
    simp [h1, h2]
  refine ⟨?_, ?_, ?_, ?_⟩
  · simp [handleSendStart, hg, hcfg]
  · simp [handleSendStart, hg, hcfg2]
  · simp [resolveSettled, handleSendResolve]
  · simp [resolveSettled, handleSendResolve]

def pendW : PendingSend :=
  { snapshotActiveId := none, outboundLog := [turnHello] }

def stateW : AppState := { initialState with messages := [turnHello] }

/-- C2 witness: a transport failure, a malformed body, and an
unconfigured endpoint, on concrete states. -/
theorem C2_witness :
    (resolveSettled "n1" pendW (AdapterOutcome.netErr "boom") stateW).messages
        = pendW.outboundLog
    ∧ (resolveSettled "n1" pendW (AdapterOutcome.ok none)
          stateW).conversationHistory
        = stateW.conversationHistory
    ∧ (handleSendStart "" "u1" "hello" initialState).2
        = StartResult.configFailed :=
  ⟨(C2_failure_rollback "" apiX "u1" "hello" "n1" "boom" initialState stateW
      pendW (by decide) (by decide) (by decide)).2.2.1.1,
   (C2_failure_rollback "" apiX "u1" "hello" "n1" "boom" initialState stateW
      pendW (by decide) (by decide) (by decide)).2.2.2.2.2.1,
   (C2_failure_rollback "" apiX "u1" "hello" "n1" "boom" initialState stateW
      pendW (by decide) (by decide) (by decide)).1.2.2.2.2⟩

/-- C5: evaluating the title derivation at the inputs where the spec
promises the fixed default title.  The implementation computes
`substring(0, 30) + "..." || "New Chat"`, and since the concatenation is
never the empty string the `|| "New Chat"` fallback is dead: an empty
first turn titles the entry `"..."` and a missing first turn titles it
`"undefined..."`, never `"New Chat"`.  The truncation half of the claim
does hold for non-empty content. -/
theorem C5_title_eval :
    newTitle [{ id := "m1", role := Role.assistant, content := "" }] = "..."
    ∧ newTitle [] = "undefined..."
    ∧ newTitle [{ id := "m2", role := Role.assistant, content := "hi there" }]
        = "hi there..."
    ∧ newTitle [{ id := "m1", role := Role.assistant, content := "" }]
        ≠ "New Chat" := by
  decide

/-- C3: when the adapter resolves successfully with a `messages`
sequence, the resolution handler sets the visible log to exactly that
sequence, so the optimistic placeholder is discarded (it can only remain
if the adapter response itself contained it); and the settled state
after the rehydration effect still shows exactly the returned sequence
whenever the active conversation at resolution time is the one the
submission was dispatched from. -/
theorem C3_success_visible (nid : String) (p : PendingSend) (s : AppState)
    (msgs : List N8nMessage) :
    (handleSendResolve nid p (AdapterOutcome.ok (some msgs)) s).messages = msgs
    ∧ (loadingMessage ∉ msgs →
        loadingMessage ∉
          (handleSendResolve nid p (AdapterOutcome.ok (some msgs)) s).messages)
    ∧ (nid ≠ "" → s.activeConversationId = p.snapshotActiveId →
        (resolveSettled nid p (AdapterOutcome.ok (some msgs)) s).messages
          = msgs) := by
  have hr : (handleSendResolve nid p (AdapterOutcome.ok (some msgs)) s).messages
      = msgs := by
    unfold handleSendResolve
    cases h : truthyId p.snapshotActiveId <;> simp [h]
  refine ⟨hr, fun hm => by rw [hr]; exact hm, ?_⟩
  intro hnid hsame
  unfold resolveSettled
  cases hsnap : truthyId p.snapshotActiveId with
  | none =>
    simp only [handleSendResolve, hsnap]
    unfold syncEffect
    simp [truthyId, hnid, findConv, List.find?]
  | some aid =>
    have hs' : truthyId s.activeConversationId = some aid := by
      rw [hsame, hsnap]
    simp only [handleSendResolve, hsnap]
    unfold syncEffect
    simp only [hs']
    rw [findConv_map_updateEntry]
    cases hf : findConv s.conversationHistory aid with
    | none => simp [hf]
    | some conv =>
      have hcid : conv.id = aid := findConv_some_id _ _ _ hf
      simp [hf, updateEntry, hcid]

/-- C3 witness: a concrete successful resolution with no conversation
switch in between. -/
theorem C3_witness :
    (handleSendResolve "n1" pendW
        (AdapterOutcome.ok (some [turnHello, turnReplyOk])) stateW).messages
      = [turnHello, turnReplyOk]
    ∧ loadingMessage ∉
        (handleSendResolve "n1" pendW
          (AdapterOutcome.ok (some [turnHello, turnReplyOk])) stateW).messages
    ∧ (resolveSettled "n1" pendW
        (AdapterOutcome.ok (some [turnHello, turnReplyOk])) stateW).messages
      = [turnHello, turnReplyOk] :=
  ⟨(C3_success_visible "n1" pendW stateW [turnHello, turnReplyOk]).1,
   (C3_success_visible "n1" pendW stateW [turnHello, turnReplyOk]).2.1
     (by decide),
   (C3_success_visible "n1" pendW stateW [turnHello, turnReplyOk]).2.2
     (by decide) (by decide)⟩

/-- C6: a successful resolution whose snapshotted active id is absent
creates exactly one new entry — fresh id, derived title, the returned
messages — at the front of the store, and the synthesized id becomes the
active id. -/
theorem C6_new_entry (nid : String) (p : PendingSend) (s : AppState)
    (msgs : List N8nMessage)
    (hsnap : truthyId p.snapshotActiveId = none)
    (hfresh : ∀ c ∈ s.conversationHistory, c.id ≠ nid) :
    (resolveSettled nid p (AdapterOutcome.ok (some msgs))
        s).conversationHistory
      = { id := nid, title := newTitle msgs, messages := msgs }
          :: s.conversationHistory
    ∧ (resolveSettled nid p (AdapterOutcome.ok (some msgs))
        s).activeConversationId = some nid
    ∧ (resolveSettled nid p (AdapterOutcome.ok (some msgs))
        s).conversationHistory.countP (fun c => c.id == nid) = 1 := by
  have hraw : handleSendResolve nid p (AdapterOutcome.ok (some msgs)) s
      = { s with
            messages := msgs
            conversationHistory :=
              { id := nid, title := newTitle msgs, messages := msgs }
                :: s.conversationHistory
            activeConversationId := some nid
            isLoading := false } := by
    unfold handleSendResolve
    rw [hsnap]
  have hhist : (resolveSettled nid p (AdapterOutcome.ok (some msgs))
      s).conversationHistory
      = { id := nid, title := newTitle msgs, messages := msgs }
          :: s.conversationHistory := by
    show (syncEffect (handleSendResolve nid p (AdapterOutcome.ok (some msgs))
      s)).conversationHistory = _
    rw [(syncEffect_frame _).1, hraw]
  have hzero : s.conversationHistory.countP (fun c => c.id == nid) = 0 :=
    List.countP_eq_zero.mpr (fun c hc => by simp [hfresh c hc])
  refine ⟨hhist, ?_, ?_⟩
  · show (syncEffect (handleSendResolve nid p (AdapterOutcome.ok (some msgs))
      s)).activeConversationId = some nid
    rw [(syncEffect_frame _).2.1, hraw]
  · rw [hhist, List.countP_cons, hzero]
    simp

/-- C6 witness: first successful exchange of a brand-new conversation. -/
theorem C6_witness :
    (resolveSettled "n1" pendW (AdapterOutcome.ok
        (some [turnHello, turnReplyOk])) stateW).conversationHistory
      = { id := "n1", title := newTitle [turnHello, turnReplyOk],
          messages := [turnHello, turnReplyOk] }
          :: stateW.conversationHistory
    ∧ (resolveSettled "n1" pendW (AdapterOutcome.ok
        (some [turnHello, turnReplyOk])) stateW).activeConversationId
      = some "n1"
    ∧ (resolveSettled "n1" pendW (AdapterOutcome.ok
        (some [turnHello, turnReplyOk])) stateW).conversationHistory.countP
        (fun c => c.id == "n1") = 1 :=
  C6_new_entry "n1" pendW stateW [turnHello, turnReplyOk] (by decide)
    (by decide)

/-- C7 (amended): the base log captured at the start of a dispatched
submission is the messages of the entry matching the truthy active id
when one matches, the empty log when a truthy active id matches no
entry, and the *current visible log* — not the empty log — when no
active id is set. -/
theorem C7_base_log (api uid content : String) (s a : AppState)
    (p : PendingSend)
    (hstart : handleSendStart api uid content s
      = (a, StartResult.inFlight p)) :
    p.outboundLog = currentMessagesOf s ++ [userMessage uid content]
    ∧ (∀ aid conv, truthyId s.activeConversationId = some aid →
        findConv s.conversationHistory aid = some conv →
        currentMessagesOf s = conv.messages)
    ∧ (∀ aid, truthyId s.activeConversationId = some aid →
        findConv s.conversationHistory aid = none →
        currentMessagesOf s = [])
    ∧ (truthyId s.activeConversationId = none →
        currentMessagesOf s = s.messages) := by
  refine ⟨(handleSendStart_inFlight_inv api uid content s a p hstart).2,
    ?_, ?_, ?_⟩
  · intro aid conv h1 h2
    simp [currentMessagesOf, h1, h2]
  · intro aid h1 h2
    simp [currentMessagesOf, h1, h2]
  · intro h1
    simp [currentMessagesOf, h1]

def pendW2 : PendingSend :=
  { snapshotActiveId := none, outboundLog := [turnHello, turnAgain] }

/-- C7 witness: a dispatched submission from a state with no active id
and a non-empty visible log. -/
theorem C7_witness :
    pendW2.outboundLog = currentMessagesOf stateW ++ [userMessage "u2" "again"]
    ∧ (truthyId stateW.activeConversationId = none →
        currentMessagesOf stateW = stateW.messages) :=
  ⟨(C7_base_log apiX "u2" "again" stateW
      (handleSendStart apiX "u2" "again" stateW).1 pendW2 (by decide)).1,
   (C7_base_log apiX "u2" "again" stateW
      (handleSendStart apiX "u2" "again" stateW).1 pendW2 (by decide)).2.2.2⟩

def eventsC7 : List Event :=
  [Event.submit "u1" "hello",
   Event.resolve 0 "c1" (AdapterOutcome.netErr "boom")]

/-- C7 counterexample: after a failed submission in a brand-new
conversation the active id is still absent, yet the base log captured by
the next submission is the retained visible log, not the empty log the
claim requires: the newly dispatched outbound log carries both user
turns. -/
theorem C7_counterexample :
    (runEvents apiX initialSession eventsC7).app.activeConversationId = none
    ∧ currentMessagesOf (runEvents apiX initialSession eventsC7).app
        = [turnHello]
    ∧ currentMessagesOf (runEvents apiX initialSession eventsC7).app ≠ []
    ∧ (runEvents apiX initialSession
          (eventsC7 ++ [Event.submit "u2" "again"])).pending.map
        (fun p => p.outboundLog)
        = [[turnHello, turnAgain]] := by
  decide

/-- C8: a successful resolution whose snapshotted active id is truthy
rewrites the store by mapping `updateEntry` over it: the id sequence and
title sequence (hence every position) are unchanged, entries with a
different id are untouched, the matching entry changes only its
`messages`, and the active id is unchanged. -/
theorem C8_update_frame (nid aid : String) (p : PendingSend) (s : AppState)
    (msgs : List N8nMessage)
    (hsnap : truthyId p.snapshotActiveId = some aid) :
    (resolveSettled nid p (AdapterOutcome.ok (some msgs))
        s).conversationHistory
      = s.conversationHistory.map (updateEntry aid msgs)
    ∧ (resolveSettled nid p (AdapterOutcome.ok (some msgs))
        s).conversationHistory.map (fun c => c.id)
      = s.conversationHistory.map (fun c => c.id)
    ∧ (resolveSettled nid p (AdapterOutcome.ok (some msgs))
        s).conversationHistory.map (fun c => c.title)
      = s.conversationHistory.map (fun c => c.title)
    ∧ (∀ c ∈ s.conversationHistory, c.id ≠ aid →
        c ∈ (resolveSettled nid p (AdapterOutcome.ok (some msgs))
          s).conversationHistory)
    ∧ findConv (resolveSettled nid p (AdapterOutcome.ok (some msgs))
        s).conversationHistory aid
      = (findConv s.conversationHistory aid).map
          (fun c => { c with messages := msgs })
    ∧ (resolveSettled nid p (AdapterOutcome.ok (some msgs))
        s).activeConversationId = s.activeConversationId := by
  have hraw : handleSendResolve nid p (AdapterOutcome.ok (some msgs)) s
      = { s with
            messages := msgs
            conversationHistory :=
              s.conversationHistory.map (updateEntry aid msgs)
            isLoading := false } := by
    unfold handleSendResolve
    rw [hsnap]
  have hhist : (resolveSettled nid p (AdapterOutcome.ok (some msgs))
      s).conversationHistory
      = s.conversationHistory.map (updateEntry aid msgs) := by
    show (syncEffect (handleSendResolve nid p (AdapterOutcome.ok (some msgs))
      s)).conversationHistory = _
    rw [(syncEffect_frame _).1, hraw]
  have hact : (resolveSettled nid p (AdapterOutcome.ok (some msgs))
      s).activeConversationId = s.activeConversationId := by
    show (syncEffect (handleSendResolve nid p (AdapterOutcome.ok (some msgs))
      s)).activeConversationId = _
    rw [(syncEffect_frame _).2.1, hraw]
  refine ⟨hhist, ?_, ?_, ?_, ?_, hact⟩
  · rw [hhist, List.map_map]
    exact List.map_congr_left (fun c _ => updateEntry_id aid msgs c)
  · rw [hhist, List.map_map]
    exact List.map_congr_left (fun c _ => updateEntry_title aid msgs c)
  · intro c hc hne
    rw [hhist]
    have heq : updateEntry aid msgs c = c := by
      unfold updateEntry
      rw [if_neg hne]
    exact heq ▸ List.mem_map_of_mem (updateEntry aid msgs) hc
  · rw [hhist, findConv_map_updateEntry]
    cases hf : findConv s.conversationHistory aid with
    | none => rfl
    | some conv =>
      have hcid : conv.id = aid := findConv_some_id _ _ _ hf
      simp [updateEntry, hcid]

def convA : ConversationHistory :=
  { id := "A", title := "ta", messages := [turnHello] }

def convB : ConversationHistory :=
  { id := "B", title := "tb", messages := [turnReplyOk] }

def stateAB : AppState :=
  { initialState with
      conversationHistory := [convA, convB]
      activeConversationId := some "A"
      messages := [turnHello] }

def pendA : PendingSend :=
  { snapshotActiveId := some "A", outboundLog := [turnHello, turnAgain] }

/-- C8 witness: updating existing conversation `A` in a two-entry
store. -/
theorem C8_witness :
    (resolveSettled "n1" pendA (AdapterOutcome.ok (some [turnAgain]))
        stateAB).conversationHistory
      = stateAB.conversationHistory.map (updateEntry "A" [turnAgain])
    ∧ (resolveSettled "n1" pendA (AdapterOutcome.ok (some [turnAgain]))
        stateAB).conversationHistory.map (fun c => c.title)
      = stateAB.conversationHistory.map (fun c => c.title) :=
  ⟨(C8_update_frame "n1" "A" pendA stateAB [turnAgain] (by decide)).1,
   (C8_update_frame "n1" "A" pendA stateAB [turnAgain] (by decide)).2.2.1⟩

/-- C9 (amended): selecting a non-empty conversation id with no matching
store entry switches the active id but leaves the visible log exactly as
it was (the rehydration effect finds no entry and does nothing); no
error is possible since the operation is total. -/
theorem C9_select_unknown (s : AppState) (cid : String)
    (hne : cid ≠ "")
    (hfind : findConv s.conversationHistory cid = none) :
    (loadConversation cid s).messages = s.messages
    ∧ (loadConversation cid s).activeConversationId = some cid := by
  unfold loadConversation syncEffect
  simp [truthyId, hne, hfind]

/-- C9 witness: selecting an unknown id on a state with a non-empty
visible log. -/
theorem C9_witness :
    (loadConversation "zzz" stateW).messages = stateW.messages
    ∧ (loadConversation "zzz" stateW).activeConversationId = some "zzz" :=
  C9_select_unknown stateW "zzz" (by decide) (by decide)

def eventsC9 : List Event :=
  [Event.submit "u1" "hello",
   Event.resolve 0 "c1" (AdapterOutcome.ok (some [turnReplyOk])),
   Event.select "zzz"]

/-- C9 counterexample: in a reachable session, selecting the unknown id
`"zzz"` leaves the previous conversation's log visible — the visible log
is `[turnReplyOk]`, not the empty log the claim requires. -/
theorem C9_counterexample :
    findConv (runEvents apiX initialSession
        eventsC9).app.conversationHistory "zzz" = none
    ∧ (runEvents apiX initialSession eventsC9).app.activeConversationId
        = some "zzz"
    ∧ (runEvents apiX initialSession eventsC9).app.messages = [turnReplyOk]
    ∧ (runEvents apiX initialSession eventsC9).app.messages ≠ [] := by
  decide

/-- When a truthy id is active and an entry matches it, the rehydration
effect sets the visible log to that entry's messages. -/
theorem syncEffect_messages_found (s : AppState) (cid : String)
    (conv : ConversationHistory)
    (h1 : truthyId s.activeConversationId = some cid)
    (h2 : findConv s.conversationHistory cid = some conv) :
    (syncEffect s).messages = conv.messages := by
  unfold syncEffect
  rw [h1]
  simp [h2]

/-- C1: a submission dispatched while conversation `aid` is active is
reconciled, after the user has switched to conversation `bid`, against
the id snapshotted at dispatch time: entry `aid` gets the returned
messages, entry `bid` is unchanged, and the settled visible log (the
`bid` conversation's) is unaffected. -/
theorem C1_snapshot_isolation (api uid content nid aid bid : String)
    (s0 a t : AppState) (p : PendingSend)
    (convA convB : ConversationHistory) (msgs : List N8nMessage)
    (hstart : handleSendStart api uid content s0
      = (a, StartResult.inFlight p))
    (hact : s0.activeConversationId = some aid)
    (haid : aid ≠ "")
    (hbid : t.activeConversationId = some bid)
    (hbne : bid ≠ "")
    (hne : bid ≠ aid)
    (hA : findConv t.conversationHistory aid = some convA)
    (hB : findConv t.conversationHistory bid = some convB)
    (hvis : t.messages = convB.messages) :
    findConv (resolveSettled nid p (AdapterOutcome.ok (some msgs))
        t).conversationHistory aid
      = some { convA with messages := msgs }
    ∧ findConv (resolveSettled nid p (AdapterOutcome.ok (some msgs))
        t).conversationHistory bid
      = some convB
    ∧ (resolveSettled nid p (AdapterOutcome.ok (some msgs)) t).messages
      = t.messages
    ∧ (resolveSettled nid p (AdapterOutcome.ok (some msgs)) t).messages
      = convB.messages := by
  have hAid : convA.id = aid := findConv_some_id _ _ _ hA
  have hBid : convB.id = bid := findConv_some_id _ _ _ hB
  have hsnap : truthyId p.snapshotActiveId = some aid := by
    rw [(handleSendStart_inFlight_inv api uid content s0 a p hstart).1, hact]
    simp [truthyId, haid]
  have hraw : handleSendResolve nid p (AdapterOutcome.ok (some msgs)) t
      = { t with
            messages := msgs
            conversationHistory :=
              t.conversationHistory.map (updateEntry aid msgs)
            isLoading := false } := by
    unfold handleSendResolve
    rw [hsnap]
  have hub : updateEntry aid msgs convB = convB := by
    unfold updateEntry
    rw [if_neg (by rw [hBid]; exact hne)]
  have hhist : (resolveSettled nid p (AdapterOutcome.ok (some msgs))
      t).conversationHistory
      = t.conversationHistory.map (updateEntry aid msgs) := by
    show (syncEffect (handleSendResolve nid p (AdapterOutcome.ok (some msgs))
      t)).conversationHistory = _
    rw [(syncEffect_frame _).1, hraw]
  have hfB : findConv (resolveSettled nid p (AdapterOutcome.ok (some msgs))
      t).conversationHistory bid = some convB := by
    rw [hhist, findConv_map_updateEntry, hB]
    simp [hub]
  have hmsg : (resolveSettled nid p (AdapterOutcome.ok (some msgs))
      t).messages = convB.messages := by
    show (syncEffect (handleSendResolve nid p (AdapterOutcome.ok (some msgs))
      t)).messages = _
    refine syncEffect_messages_found _ bid convB ?_ ?_
    · rw [hraw]
      show truthyId t.activeConversationId = some bid
      rw [hbid]
      simp [truthyId, hbne]
    · rw [hraw]
      show findConv (t.conversationHistory.map (updateEntry aid msgs)) bid
        = some convB
      rw [findConv_map_updateEntry, hB]
      simp [hub]
  refine ⟨?_, hfB, by rw [hmsg, hvis], hmsg⟩
  rw [hhist, findConv_map_updateEntry, hA]
  simp [updateEntry, hAid]

def stateA : AppState :=
  { initialState with
      conversationHistory := [convA, convB]
      activeConversationId := some "A"
      messages := [turnHello] }

def pendC1 : PendingSend :=
  { snapshotActiveId := some "A", outboundLog := [turnHello, turnAgain] }

def stateT : AppState :=
  loadConversation "B" (handleSendStart apiX "u2" "again" stateA).1

def respC1 : List N8nMessage := [turnHello, turnAgain, turnReplyOk]

/-- C1 witness: submit in `A`, switch to `B`, then resolve: `A` gets the
response, `B` and the visible log are untouched. -/
theorem C1_witness :
    findConv (resolveSettled "n1" pendC1 (AdapterOutcome.ok (some respC1))
        stateT).conversationHistory "A"
      = some { convA with messages := respC1 }
    ∧ findConv (resolveSettled "n1" pendC1 (AdapterOutcome.ok (some respC1))
        stateT).conversationHistory "B"
      = some convB
    ∧ (resolveSettled "n1" pendC1 (AdapterOutcome.ok (some respC1))
        stateT).messages = stateT.messages :=
  ⟨(C1_snapshot_isolation apiX "u2" "again" "n1" "A" "B" stateA
      (handleSendStart apiX "u2" "again" stateA).1 stateT pendC1 convA convB
      respC1 (by decide) (by decide) (by decide) (by decide) (by decide)
      (by decide) (by decide) (by decide) (by decide)).1,
   (C1_snapshot_isolation apiX "u2" "again" "n1" "A" "B" stateA
      (handleSendStart apiX "u2" "again" stateA).1 stateT pendC1 convA convB
      respC1 (by decide) (by decide) (by decide) (by decide) (by decide)
      (by decide) (by decide) (by decide) (by decide)).2.1,
   (C1_snapshot_isolation apiX "u2" "again" "n1" "A" "B" stateA
      (handleSendStart apiX "u2" "again" stateA).1 stateT pendC1 convA convB
      respC1 (by decide) (by decide) (by decide) (by decide) (by decide)
      (by decide) (by decide) (by decide) (by decide)).2.2.1⟩

/-- Resolution preserves placeholder-freeness of the store as long as a
successful response itself is placeholder-free. -/
theorem resolveSettled_clean (nid : String) (p : PendingSend)
    (o : AdapterOutcome) (s : AppState)
    (hs : s.conversationHistory.all
      (fun c => !(c.messages.contains loadingMessage)) = true)
    (ho : ∀ msgs, o = AdapterOutcome.ok (some msgs) →
      msgs.contains loadingMessage = false) :
    (resolveSettled nid p o s).conversationHistory.all
      (fun c => !(c.messages.contains loadingMessage)) = true := by
  cases o with
  | netErr e => simpa [resolveSettled, handleSendResolve] using hs
  | ok r =>
    cases r with
    | none => simpa [resolveSettled, handleSendResolve] using hs
    | some msgs =>
      have hm : msgs.contains loadingMessage = false := ho msgs rfl
      show (syncEffect (handleSendResolve nid p
          (AdapterOutcome.ok (some msgs)) s)).conversationHistory.all
        (fun c => !(c.messages.contains loadingMessage)) = true
      rw [(syncEffect_frame _).1]
      unfold handleSendResolve
      rw [List.all_eq_true] at hs
      cases hsnap : truthyId p.snapshotActiveId with
      | some aid =>
        simp only [hsnap]
        rw [List.all_eq_true]
        intro c hc
        rw [List.mem_map] at hc
        obtain ⟨c0, hc0, rfl⟩ := hc
        unfold updateEntry
        split
        · simpa using hm
        · exact hs c0 hc0
      | none =>
        simp only [hsnap]
        rw [List.all_eq_true]
        intro c hc
        rcases List.mem_cons.mp hc with h | h
        · subst h
          simpa using hm
        · exact hs c h

/-- One session step preserves placeholder-freeness of the store when
the event is clean. -/
theorem step_clean (api : String) (s : Session) (e : Event)
    (hs : storeClean s = true) (he : eventClean e = true) :
    storeClean (step api s e) = true := by
  cases e with
  | submit uid content =>
    unfold step
    cases hr : (handleSendStart api uid content s.app).2 with
    | rejected =>
      simp only [hr]
      show (handleSendStart api uid content s.app).1.conversationHistory.all
        (fun c => !(c.messages.contains loadingMessage)) = true
      rw [(handleSendStart_store api uid content s.app).1]
      exact hs
    | configFailed =>
      simp only [hr]
      show (handleSendStart api uid content s.app).1.conversationHistory.all
        (fun c => !(c.messages.contains loadingMessage)) = true
      rw [(handleSendStart_store api uid content s.app).1]
      exact hs
    | inFlight p =>
      simp only [hr]
      show (handleSendStart api uid content s.app).1.conversationHistory.all
        (fun c => !(c.messages.contains loadingMessage)) = true
      rw [(handleSendStart_store api uid content s.app).1]
      exact hs
  | resolve idx nid o =>
    unfold step
    cases hp : s.pending[idx]? with
    | none =>
      simp only [hp]
      exact hs
    | some p =>
      simp only [hp]
      show (resolveSettled nid p o s.app).conversationHistory.all
        (fun c => !(c.messages.contains loadingMessage)) = true
      refine resolveSettled_clean nid p o s.app hs ?_
      intro msgs hmo
      subst hmo
      simpa [eventClean] using he
  | select cid =>
    unfold step
    show (loadConversation cid s.app).conversationHistory.all
      (fun c => !(c.messages.contains loadingMessage)) = true
    unfold loadConversation
    rw [(syncEffect_frame _).1]
    exact hs
  | newConversation =>
    unfold step
    show (startNewConversation s.app).conversationHistory.all
      (fun c => !(c.messages.contains loadingMessage)) = true
    unfold startNewConversation
    rw [(syncEffect_frame _).1]
    exact hs
  | toggle => exact hs
  | typeText t => exact hs

theorem runEvents_clean (api : String) : ∀ (evs : List Event) (s : Session),
    storeClean s = true → (∀ e ∈ evs, eventClean e = true) →
    storeClean (runEvents api s evs) = true := by
  intro evs
  induction evs with
  | nil => exact fun s hs _ => hs
  | cons e tl ih =>
    intro s hs hc
    exact ih (step api s e)
      (step_clean api s e hs (hc e (List.mem_cons_self e tl)))
      (fun x hx => hc x (List.mem_cons_of_mem e hx))

/-- C10 (amended): in every session reachable from the initial one by
events whose successful adapter responses are free of the placeholder
turn, no persisted Conversation Entry contains the placeholder turn.
(The code stores successful responses verbatim, so a response that
itself contains the placeholder-shaped turn is the only way it can reach
the store.) -/
theorem C10_placeholder_free (api : String) (evs : List Event)
    (hclean : ∀ e ∈ evs, eventClean e = true) :
    storeClean (runEvents api initialSession evs) = true :=
  runEvents_clean api evs initialSession rfl hclean

def eventsGood : List Event :=
  [Event.submit "u1" "hello",
   Event.resolve 0 "c1" (AdapterOutcome.ok (some [turnHello, turnReplyOk])),
   Event.select "B",
   Event.newConversation]

/-- C10 witness: a run with a clean successful response keeps the store
free of the placeholder. -/
theorem C10_witness :
    storeClean (runEvents apiX initialSession eventsGood) = true :=
  C10_placeholder_free apiX eventsGood (by decide)

def eventsBad : List Event :=
  [Event.submit "u1" "hi",
   Event.resolve 0 "c1" (AdapterOutcome.ok (some [loadingMessage]))]

/-- C10 counterexample: the success handler trusts the response
verbatim, so an adapter response consisting of the placeholder turn
itself is persisted into the store, violating the claim as stated. -/
theorem C10_counterexample :
    storeClean (runEvents apiX initialSession eventsBad) = false := by
  decide

end ChatApp
